import Mathlib

/-!
Shallow embedding of the hikvision_next ISAPI client core
(custom_components/hikvision_next) and proofs about its event
normalization, URL synthesis, error handling and alert processing.

Python strings are modelled as Lean String, Python dicts as association
lists (first matching key wins, mirroring dict lookup on tables whose
keys are unique), dynamically typed XML/JSON values as the PyVal
inductive, and fallible or effectful code as explicit outcome types.
-/

namespace HikvisionNext

/-- A dynamically typed value as produced by the XML/JSON normalization
layer: strings, booleans, integers, lists, string-keyed mappings and
the Python None value. -/
inductive PyVal where
  | vstr (s : String)
  | vbool (b : Bool)
  | vint (n : Int)
  | vlist (xs : List PyVal)
  | vdict (entries : List (String × PyVal))
  | vnone

/-- Association list lookup, modelling Python dict subscript and
dict.get on dicts with unique keys (first match wins). -/
def assoc {α : Type} (l : List (String × α)) (k : String) : Option α :=
  match l with
  | [] => none
  | (k₁, v) :: rest => if k₁ = k then some v else assoc rest k

/-- Lower-casing of one ASCII character, as Python str.lower acts on
the ASCII alphabet (all identifiers handled by the client are ASCII). -/
def charLower (c : Char) : Char :=
  if 65 ≤ c.toNat ∧ c.toNat ≤ 90 then Char.ofNat (c.toNat + 32) else c

/-- Python str.lower restricted to ASCII input. -/
def pyLower (s : String) : String := ⟨s.data.map charLower⟩

/-- Splitting a character list on a separator character, with Python
str.split semantics for a one-character separator: the empty string
splits to one empty field, separators delimit possibly empty fields. -/
def splitCharList (sep : Char) : List Char → List (List Char)
  | [] => [[]]
  | c :: cs =>
    let rest := splitCharList sep cs
    if c = sep then [] :: rest
    else
      match rest with
      | r :: rs => (c :: r) :: rs
      | [] => [[c]]

/-- Python path.split on a dot, as used by deep_get. -/
def pySplitDot (s : String) : List String :=
  (splitCharList '.' s.data).map fun cs => ⟨cs⟩

/-- Python truthiness of a PyVal. -/
def pyTruthy : PyVal → Bool
  | .vstr s => !s.isEmpty
  | .vbool b => b
  | .vint n => n != 0
  | .vlist xs => !xs.isEmpty
  | .vdict es => !es.isEmpty
  | .vnone => false

/-- Whether a PyVal is a Python list (isinstance(result, list)). -/
def isList : PyVal → Bool
  | .vlist _ => true
  | _ => false

/-- Whether a PyVal is the empty Python list; this is exactly the
Python test (default == list-literal-empty) for the values deep_get is
called with, since only a list compares equal to an empty list. -/
def isEmptyList : PyVal → Bool
  | .vlist [] => true
  | _ => false

/-- The reduce step of utils.deep_get: one dotted-path component.
For a dict, d.get(key, default); for anything else, the default. -/
def deep_get_step (default : PyVal) (d : PyVal) (key : String) : PyVal :=
  match d with
  | .vdict es => (assoc es key).getD default
  | _ => default

/-- The traversal part of utils.deep_get: reduce over path.split on dots. -/
def deep_get_raw (dictionary : PyVal) (path : String) (default : PyVal) : PyVal :=
  (pySplitDot path).foldl (deep_get_step default) dictionary

/-- utils.deep_get: null-safe dotted-path traversal; when the default
is the empty list and the traversal result is not a list, the result is
wrapped into a one-element list. -/
def deep_get (dictionary : PyVal) (path : String) (default : PyVal) : PyVal :=
  let result := deep_get_raw dictionary path default
  if isEmptyList default && !(isList result) then .vlist [result] else result

/-- utils.bool_to_str. -/
def bool_to_str (value : Bool) : String := if value then "true" else "false"

/-- utils.str_to_bool: truthy input compares its lower-casing to "true". -/
def str_to_bool (value : String) : Bool :=
  if !value.isEmpty then pyLower value = "true" else false

/-- Outcome of the error-handling branch of ISAPIClient.request when
the HTTP response status is not a success status: which exception
escapes, or whether the error is swallowed into an empty result. -/
inductive RequestOutcome where
  | raise_unauthorized
  | raise_forbidden
  | empty_result
  | raise_status_error
deriving DecidableEq

/-- The except-HTTPStatusError branch of ISAPIClient.request
(isapi.py): 401 raises ISAPIUnauthorizedError; 403 raises
ISAPIForbiddenError only when not pending initialization; any
remaining error during pending initialization returns an empty dict;
otherwise the status error is re-raised. -/
def request_error_disposition (status_code : Nat) (pending_initialization : Bool) : RequestOutcome :=
  if status_code = 401 then .raise_unauthorized
  else if status_code = 403 ∧ pending_initialization = false then .raise_forbidden
  else if pending_initialization then .empty_result
  else .raise_status_error

/-- A camera attached to the device: IPCamera or AnalogCamera
(isapi/models.py), reduced to the fields notifications.update_alert_channel
inspects: the class, the channel id and the input port. -/
inductive Camera where
  | ipCamera (id : Nat) (input_port : Nat)
  | analogCamera (id : Nat) (input_port : Nat)
deriving DecidableEq

/-- The camera id field. -/
def Camera.camera_id : Camera → Nat
  | .ipCamera i _ => i
  | .analogCamera i _ => i

/-- The camera input_port field. -/
def Camera.input_port : Camera → Nat
  | .ipCamera _ p => p
  | .analogCamera _ p => p

/-- isinstance(camera, IPCamera). -/
def Camera.is_ip : Camera → Bool
  | .ipCamera _ _ => true
  | .analogCamera _ _ => false

/-- notifications.EventNotificationsView.update_alert_channel: an alert
channel id above 32 is remapped to the id of the first IPCamera whose
input_port equals channel_id - 32, with fallback to the bare
subtraction when no IP camera matches; other ids are left unchanged. -/
def update_alert_channel (cameras : List Camera) (channel_id : Nat) : Nat :=
  if channel_id > 32 then
    match (cameras.filter fun c => c.is_ip && c.input_port == channel_id - 32).map Camera.camera_id with
    | [] => channel_id - 32
    | i :: _ => i
  else channel_id

/-- isapi/const.py EVENTS: the canonical event table, a dict from
semantic event id to a dict of attributes (type, label, slug, and for
some events a mutex flag and direct/proxied node-name overrides). The
type values basic, io, smart, pir are the const.py EVENT_* constants. -/
def EVENTS : List (String × List (String × PyVal)) :=
  [("motiondetection",
    [("type", .vstr "basic"), ("label", .vstr "Motion"),
     ("slug", .vstr "motionDetection"), ("mutex", .vbool true)]),
   ("tamperdetection",
    [("type", .vstr "basic"), ("label", .vstr "Video Tampering"),
     ("slug", .vstr "tamperDetection")]),
   ("videoloss",
    [("type", .vstr "basic"), ("label", .vstr "Video Loss"),
     ("slug", .vstr "videoLoss")]),
   ("scenechangedetection",
    [("type", .vstr "smart"), ("label", .vstr "Scene Change"),
     ("slug", .vstr "SceneChangeDetection"), ("mutex", .vbool true)]),
   ("fielddetection",
    [("type", .vstr "smart"), ("label", .vstr "Intrusion"),
     ("slug", .vstr "FieldDetection"), ("mutex", .vbool true)]),
   ("linedetection",
    [("type", .vstr "smart"), ("label", .vstr "Line Crossing"),
     ("slug", .vstr "LineDetection"), ("mutex", .vbool true)]),
   ("regionentrance",
    [("type", .vstr "smart"), ("label", .vstr "Region Entrance"),
     ("slug", .vstr "regionEntrance")]),
   ("regionexiting",
    [("type", .vstr "smart"), ("label", .vstr "Region Exiting"),
     ("slug", .vstr "regionExiting")]),
   ("io",
    [("type", .vstr "io"), ("label", .vstr "Alarm Input"),
     ("slug", .vstr "inputs"), ("direct_node", .vstr "IOInputPort"),
     ("proxied_node", .vstr "IOProxyInputPort")]),
   ("pir",
    [("type", .vstr "pir"), ("label", .vstr "PIR"),
     ("slug", .vstr "WLAlarm/PIR"), ("direct_node", .vstr "PIRAlarm")])]

/-- isapi/const.py EVENTS_ALTERNATE_ID: vendor alias table from
alternate event id to canonical event id. -/
def EVENTS_ALTERNATE_ID : List (String × String) :=
  [("vmd", "motiondetection"),
   ("thermometry", "motiondetection"),
   ("shelteralarm", "tamperdetection"),
   ("VMDHumanVehicle", "motiondetection")]

/-- isapi/const.py MUTEX_ALTERNATE_ID: alternate event id used when
probing the mutex endpoint. -/
def MUTEX_ALTERNATE_ID : List (String × String) :=
  [("motiondetection", "VMDHumanVehicle")]

/-- The alias rewrite on an already lowered id, membership form: when
the id is a key of EVENTS_ALTERNATE_ID, replace it by the alias target. -/
def alternate_of_membership (event_id : String) : String :=
  match assoc EVENTS_ALTERNATE_ID event_id with
  | some target => target
  | none => event_id

/-- The alias rewrite on an already lowered id, truthy-get form: when
EVENTS_ALTERNATE_ID.get of the id is truthy, replace it by the alias
target. -/
def alternate_of_truthy_get (event_id : String) : String :=
  match assoc EVENTS_ALTERNATE_ID event_id with
  | some target => if target.isEmpty then event_id else target
  | none => event_id

/-- Event id normalization in create_event_info (inside
ISAPIClient.get_supported_events): lower-case the raw eventType, then
rewrite through the alias table when the lowered id is one of its keys. -/
def normalize_event_id_discovery (event_type : String) : String :=
  alternate_of_membership (pyLower event_type)

/-- Event id normalization in ISAPIClient.parse_event_notification:
lower-case the extracted event type, then rewrite through the alias
table when its get of the lowered id is truthy. -/
def normalize_event_id_alert (event_id : String) : String :=
  alternate_of_truthy_get (pyLower event_id)

/-- How parse_event_notification treats a normalized event id before
building an AlertInfo: subscripting EVENTS with an unknown id raises
KeyError, a known id whose table entry is an empty (falsy) dict would
raise the explicit ValueError, and otherwise parsing proceeds. -/
inductive ParseFailure where
  | keyError (key : String)
  | valueError (msg : String)
deriving DecidableEq

/-- The supported-event gate of ISAPIClient.parse_event_notification:
normalize the raw event type, then evaluate the statement
(if not EVENTS subscripted at event_id then raise ValueError), where
the subscript itself raises KeyError on a missing key. On success the
function would go on to return an AlertInfo with this event id. -/
def parse_event_notification_gate (raw_event_type : String) : Except ParseFailure String :=
  let event_id := normalize_event_id_alert raw_event_type
  match assoc EVENTS event_id with
  | none => .error (.keyError event_id)
  | some entry =>
    if entry.isEmpty then .error (.valueError ("Unsupported event " ++ event_id))
    else .ok event_id

/-- ISAPIClient.get_event_url: the state-fetch URL of an event, by
event family, channel or port, and connection type. An event id
missing from EVENTS (or with a falsy entry) yields None. The wildcard
arm models the impossible case of an EVENTS entry without string type
and slug attributes; every entry of the concrete table has both. -/
def get_event_url (event_id : String) (channel_id : Nat) (io_port_id : Nat)
    (is_proxy : Bool) : Option String :=
  match assoc EVENTS event_id with
  | none => none
  | some entry =>
    if entry.isEmpty then none
    else
      match assoc entry "type", assoc entry "slug" with
      | some (.vstr event_type), some (.vstr slug) =>
        some (
          if event_type = "basic" then
            if is_proxy then s!"ContentMgmt/InputProxy/channels/{channel_id}/video/{slug}"
            else s!"System/Video/inputs/channels/{channel_id}/{slug}"
          else if event_type = "io" then
            if is_proxy then s!"ContentMgmt/IOProxy/{slug}/{io_port_id}"
            else s!"System/IO/{slug}/{io_port_id}"
          else if event_type = "pir" then slug
          else s!"Smart/{slug}/{channel_id}")
      | _, _ => none

/-- The event family of the canonical table, as the spec describes it. -/
inductive EventFamily where
  | basic
  | io_family
  | pir
  | smart

/-- Modelled from the spec: the URL family rule of section 4.5 step 6 —
basic events use the InputProxy video path when proxied and the
System/Video path otherwise, io events the IOProxy or System/IO path,
pir events a fixed slug with no substitution, and smart events the
Smart path with the channel id. -/
def spec_family_url : EventFamily → String → Nat → Nat → Bool → String
  | .basic, slug, ch, _, true => s!"ContentMgmt/InputProxy/channels/{ch}/video/{slug}"
  | .basic, slug, ch, _, false => s!"System/Video/inputs/channels/{ch}/{slug}"
  | .io_family, slug, _, port, true => s!"ContentMgmt/IOProxy/{slug}/{port}"
  | .io_family, slug, _, port, false => s!"System/IO/{slug}/{port}"
  | .pir, slug, _, _, _ => slug
  | .smart, slug, ch, _, _ => s!"Smart/{slug}/{ch}"

/-- isapi/models.py EventInfo: the canonical representation of one
detectable condition on one channel or I/O port. -/
structure EventInfo where
  id : String
  channel_id : Nat
  io_port_id : Nat
  unique_id : Option String := none
  url : Option String := none
  is_proxy : Bool := false
  disabled : Bool := false
  notifications : List String := []
deriving DecidableEq

/-- isapi/models.py MutexIssue: the conflicting event id and the
channels on which it is active, as reported by the mutex probe. -/
structure MutexIssue where
  event_id : String
  channels : List Nat := []
deriving DecidableEq

/-- One entry of the MutexFunctionList in the JSON response of the
System/mutexFunction probe: the conflicting function name and its
channel list. -/
structure MutexItem where
  mutexFunction : String
  channelID : List Nat
deriving DecidableEq

/-- The truthiness test (EVENTS subscripted at the event id).get of
mutex in get_event_switch_mutex. An id missing from EVENTS would raise
KeyError in Python; it is mapped to false here and the theorems about
the mutex path only use ids present in EVENTS. -/
def event_mutex_flag (event_id : String) : Bool :=
  match assoc EVENTS event_id with
  | some entry =>
    match assoc entry "mutex" with
    | some v => pyTruthy v
    | none => false
  | none => false

/-- The alternate-id rewrite applied to each mutexFunction name of the
probe response (get_event_switch_mutex): when EVENTS_ALTERNATE_ID.get
of the raw name is truthy, replace it by the alias target. No
lower-casing happens on this path. -/
def resolve_mutex_response_id (mutex_event_id : String) : String :=
  match assoc EVENTS_ALTERNATE_ID mutex_event_id with
  | some target => if target.isEmpty then mutex_event_id else target
  | none => mutex_event_id

/-- The MutexIssue built from one probe response item. -/
def mutex_issue_of_item (item : MutexItem) : MutexIssue :=
  { event_id := resolve_mutex_response_id item.mutexFunction,
    channels := item.channelID }

/-- The function id sent in the mutex probe payload: the event id, or
its MUTEX_ALTERNATE_ID alias when one is configured and truthy. -/
def mutex_probe_function_id (event_id : String) : String :=
  match assoc MUTEX_ALTERNATE_ID event_id with
  | some target => if target.isEmpty then event_id else target
  | none => event_id

/-- ISAPIClient.get_event_switch_mutex: no issues for an event whose
EVENTS entry lacks a truthy mutex flag; otherwise the probe response
items are mapped to MutexIssue records. The response argument is the
parsed MutexFunctionList of the JSON reply; none models a falsy reply
or a reply without a truthy MutexFunctionList, which yields no issues. -/
def get_event_switch_mutex (event_id : String)
    (mutex_response : Option (List MutexItem)) : List MutexIssue :=
  if event_mutex_flag event_id = false then []
  else
    match mutex_response with
    | none => []
    | some items => items.map mutex_issue_of_item

/-- Outcome of ISAPIClient.set_event_enabled_state: early return on a
missing event URL, the structured mutex exception, the silent no-op
when the state is unchanged, or the PUT of the flipped document. -/
inductive SetEventOutcome where
  | no_url
  | no_change
  | put_request (url : String) (new_state : String)
  | mutex_error (event_id : String) (issues : List MutexIssue)
deriving DecidableEq

/-- ISAPIClient.set_event_enabled_state. The mutex probe runs only when
enabling on a channel other than 0 on a device that advertises mutex
checking. current_enabled is the enabled text of the state-node of the
document fetched by the GET on the event URL; when the new state equals
it the function returns without a PUT, otherwise it PUTs the document
back with the flipped flag. A non-empty issue list raises
ISAPISetEventStateMutexError carrying the event and the issues, and no
GET or PUT on the event URL happens. -/
def set_event_enabled_state (support_event_mutex_checking : Bool) (channel_id : Nat)
    (event : EventInfo) (is_enabled : Bool) (mutex_response : Option (List MutexItem))
    (current_enabled : String) : SetEventOutcome :=
  match event.url with
  | none => .no_url
  | some url =>
    let mutex_issues : List MutexIssue :=
      if channel_id ≠ 0 ∧ is_enabled = true ∧ support_event_mutex_checking = true then
        get_event_switch_mutex event.id mutex_response
      else []
    if mutex_issues.isEmpty then
      if bool_to_str is_enabled = current_enabled then .no_change
      else .put_request url (bool_to_str is_enabled)
    else .mutex_error event.id mutex_issues

/-- One entry of the AdminAccessProtocolList in the
Security/adminAccesses response: the protocol name and the optional
portNo text. -/
structure ProtocolItem where
  protocol : String
  portNo : Option String
deriving DecidableEq

/-- Python truthiness of an optional portNo text. -/
def port_truthy : Option String → Bool
  | some s => !s.isEmpty
  | none => false

/-- ISAPIClient.get_protocols: scan the protocol list for the first
RTSP entry with a truthy portNo; record the forced override port when
one is configured and truthy, the reported port otherwise, and stop.
With no matching entry the rtsp_port keeps its previous value. -/
def get_protocols (rtsp_port_forced : Option Nat) (items : List ProtocolItem)
    (rtsp_port : String) : String :=
  match items with
  | [] => rtsp_port
  | item :: rest =>
    if item.protocol = "RTSP" ∧ port_truthy item.portNo = true then
      match rtsp_port_forced with
      | some n => if n ≠ 0 then toString n else (item.portNo).getD ""
      | none => (item.portNo).getD ""
    else get_protocols rtsp_port_forced rest rtsp_port

/-- Python membership test (s.id in EVENTS). -/
def events_membership (event_id : String) : Bool :=
  (assoc EVENTS event_id).isSome

/-- The test (EVENTS subscripted at s.id).get of type equals the io
constant, from the NVR branch of get_device_event_capabilities. -/
def event_type_is_io (event_id : String) : Bool :=
  match assoc EVENTS event_id with
  | some entry =>
    match assoc entry "type" with
    | some (.vstr t) => t = "io"
    | _ => false
  | none => false

/-- The per-event body of the loop in
HikvisionDevice.get_device_event_capabilities: build the unique id
from the slugified serial, the camera id (when truthy), the io port id
(when nonzero) and the event id; when EVENTS.get of the event id is
truthy, store the unique id, derive the disabled flag from the absence
of center among the notification methods, and keep the event. The
serial_slug argument stands for slugify of the lower-cased device
serial number. -/
def apply_event_entity_settings (serial_slug : String) (camera_id : Option Nat)
    (event : EventInfo) : Option EventInfo :=
  let device_id_param : String :=
    match camera_id with
    | some n => if n ≠ 0 then "_" ++ toString n else ""
    | none => ""
  let io_port_id_param : String :=
    if event.io_port_id ≠ 0 then "_" ++ toString event.io_port_id else ""
  let uid := serial_slug ++ device_id_param ++ io_port_id_param ++ "_" ++ event.id
  match assoc EVENTS event.id with
  | some entry =>
    if entry.isEmpty then none
    else some { event with
                unique_id := some uid,
                disabled := !(event.notifications.contains "center") }
  | none => none

/-- HikvisionDevice.get_device_event_capabilities: select the
integration-supported events (for the NVR device the io-typed events
of the table, for a camera the events of that channel that are in the
table), then apply the entity settings to each. -/
def get_device_event_capabilities (supported_events : List EventInfo)
    (serial_slug : String) (camera_id : Option Nat) : List EventInfo :=
  let integration_supported_events :=
    match camera_id with
    | none => supported_events.filter fun (s : EventInfo) => events_membership s.id && event_type_is_io s.id
    | some cid => supported_events.filter fun (s : EventInfo) => s.channel_id == cid && events_membership s.id
  integration_supported_events.filterMap (apply_event_entity_settings serial_slug camera_id)

theorem assoc_mem {α : Type} {l : List (String × α)} {k : String} {v : α}
    (h : assoc l k = some v) : (k, v) ∈ l := by
  induction l with
  | nil => simp [assoc] at h
  | cons p rest ih =>
    obtain ⟨k₁, v₁⟩ := p
    by_cases hk : k₁ = k
    · subst hk
      simp [assoc] at h
      simp [h]
    · simp only [assoc, if_neg hk] at h
      exact List.mem_cons_of_mem _ (ih h)

theorem events_values_nonempty : ∀ p ∈ EVENTS, (p.2).isEmpty = false := by decide

/-- Claim C1 counterexample: the alias VMDHumanVehicle is a key of the
alternate-id table with target motiondetection, yet both discovery and
alert normalization map the input VMDHumanVehicle to vmdhumanvehicle,
not to the canonical id, because both lower-case the input before the
lookup and the table key is mixed-case. -/
theorem alias_mixed_case_counterexample :
    assoc EVENTS_ALTERNATE_ID "VMDHumanVehicle" = some "motiondetection"
    ∧ normalize_event_id_discovery "VMDHumanVehicle" = "vmdhumanvehicle"
    ∧ normalize_event_id_alert "VMDHumanVehicle" = "vmdhumanvehicle"
    ∧ "vmdhumanvehicle" ≠ "motiondetection" := by
  refine ⟨rfl, rfl, rfl, by decide⟩

/-- Claim C1 (amended): for the all-lowercase alias keys vmd,
thermometry and shelteralarm, both discovery (create_event_info) and
alert parsing (parse_event_notification) resolve any casing of the
alias to the canonical target id of the table; the mixed-case key
VMDHumanVehicle is never matched by these two functions, which resolve
every casing of it to the lowered string vmdhumanvehicle. -/
theorem alias_resolution (s : String) :
    (pyLower s = "vmd" →
      normalize_event_id_discovery s = "motiondetection"
      ∧ normalize_event_id_alert s = "motiondetection")
    ∧ (pyLower s = "thermometry" →
      normalize_event_id_discovery s = "motiondetection"
      ∧ normalize_event_id_alert s = "motiondetection")
    ∧ (pyLower s = "shelteralarm" →
      normalize_event_id_discovery s = "tamperdetection"
      ∧ normalize_event_id_alert s = "tamperdetection")
    ∧ (pyLower s = "vmdhumanvehicle" →
      normalize_event_id_discovery s = "vmdhumanvehicle"
      ∧ normalize_event_id_alert s = "vmdhumanvehicle") := by
  refine ⟨fun h => ?_, fun h => ?_, fun h => ?_, fun h => ?_⟩ <;>
    simp only [normalize_event_id_discovery, normalize_event_id_alert, h] <;>
    exact ⟨rfl, rfl⟩

/-- Claim C1 witness: the casing VMD of the alias vmd resolves to
motiondetection on both paths. -/
theorem alias_resolution_witness :
    normalize_event_id_discovery "VMD" = "motiondetection"
    ∧ normalize_event_id_alert "VMD" = "motiondetection" :=
  (alias_resolution "VMD").1 rfl

/-- Claim C2 counterexample: a 403 received while the client is
pending initialization is swallowed into an empty result, not raised
as the Forbidden error. -/
theorem forbidden_suppressed_counterexample :
    request_error_disposition 403 true = RequestOutcome.empty_result
    ∧ RequestOutcome.empty_result ≠ RequestOutcome.raise_forbidden := by decide

/-- Claim C2 (amended): a 403 raises the distinct Forbidden error
exactly when the client is not pending initialization; during the
pending-initialization phase a 403 is suppressed into an empty result
like every non-401 error, while a 401 always raises the Unauthorized
error, initialization or not. -/
theorem forbidden_disposition (pending_initialization : Bool) :
    request_error_disposition 403 pending_initialization
      = (if pending_initialization then RequestOutcome.empty_result
         else RequestOutcome.raise_forbidden)
    ∧ request_error_disposition 401 pending_initialization
      = RequestOutcome.raise_unauthorized := by
  cases pending_initialization <;> exact ⟨rfl, rfl⟩

/-- Claim C5: get_event_url is a pure function of its four arguments
(in this embedding it is a total function of exactly those arguments
and of the fixed EVENTS table, so determinism holds by construction),
and on every id of the canonical table its result follows the family
rule of the spec exactly: the three basic ids, the single io id with
its port, the fixed pir slug and the five smart ids. -/
theorem get_event_url_family (channel_id io_port_id : Nat) (is_proxy : Bool) :
    get_event_url "motiondetection" channel_id io_port_id is_proxy
      = some (spec_family_url .basic "motionDetection" channel_id io_port_id is_proxy)
    ∧ get_event_url "tamperdetection" channel_id io_port_id is_proxy
      = some (spec_family_url .basic "tamperDetection" channel_id io_port_id is_proxy)
    ∧ get_event_url "videoloss" channel_id io_port_id is_proxy
      = some (spec_family_url .basic "videoLoss" channel_id io_port_id is_proxy)
    ∧ get_event_url "scenechangedetection" channel_id io_port_id is_proxy
      = some (spec_family_url .smart "SceneChangeDetection" channel_id io_port_id is_proxy)
    ∧ get_event_url "fielddetection" channel_id io_port_id is_proxy
      = some (spec_family_url .smart "FieldDetection" channel_id io_port_id is_proxy)
    ∧ get_event_url "linedetection" channel_id io_port_id is_proxy
      = some (spec_family_url .smart "LineDetection" channel_id io_port_id is_proxy)
    ∧ get_event_url "regionentrance" channel_id io_port_id is_proxy
      = some (spec_family_url .smart "regionEntrance" channel_id io_port_id is_proxy)
    ∧ get_event_url "regionexiting" channel_id io_port_id is_proxy
      = some (spec_family_url .smart "regionExiting" channel_id io_port_id is_proxy)
    ∧ get_event_url "io" channel_id io_port_id is_proxy
      = some (spec_family_url .io_family "inputs" channel_id io_port_id is_proxy)
    ∧ get_event_url "pir" channel_id io_port_id is_proxy
      = some (spec_family_url .pir "WLAlarm/PIR" channel_id io_port_id is_proxy) := by
  cases is_proxy <;>
    exact ⟨rfl, rfl, rfl, rfl, rfl, rfl, rfl, rfl, rfl, rfl⟩

/-- Claim C6: deep_get of an empty mapping along a dotted path with the
empty-list default returns the empty list; a single string found at the
path is wrapped into a one-element list; and in general, with the
empty-list default, a list traversal result is returned as-is while any
non-list result is wrapped into a one-element list. -/
theorem deep_get_defaulting :
    deep_get (.vdict []) "a.b.c" (.vlist []) = PyVal.vlist []
    ∧ deep_get (.vdict [("a", .vdict [("b", .vdict [("c", .vstr "x")])])]) "a.b.c" (.vlist [])
      = PyVal.vlist [.vstr "x"]
    ∧ ∀ (d : PyVal) (p : String),
      deep_get d p (.vlist [])
        = (if isList (deep_get_raw d p (.vlist [])) = true then deep_get_raw d p (.vlist [])
           else PyVal.vlist [deep_get_raw d p (.vlist [])]) := by
  refine ⟨rfl, rfl, fun d p => ?_⟩
  unfold deep_get
  cases h : isList (deep_get_raw d p (PyVal.vlist [])) <;> simp [h, isEmptyList]

/-- Claim C7 counterexample: on a device whose only camera is an
analog camera with id 5 and input port 1, an alert with channel id 33
falls back to the naive value 1 even though a camera whose input_port
equals 33 - 32 exists; the code only matches IPCamera instances, so
the claim as stated (remap to the id of the camera with the matching
input port, fallback only when no such camera exists) fails here. -/
theorem update_alert_channel_counterexample :
    update_alert_channel [Camera.analogCamera 5 1] 33 = 1
    ∧ (Camera.analogCamera 5 1).input_port = 33 - 32
    ∧ (Camera.analogCamera 5 1).camera_id = 5
    ∧ (5 : Nat) ≠ 1 := by decide

/-- Claim C7 (amended): for an alert channel id above 32,
update_alert_channel remaps it to the id of the first IP camera whose
input_port equals channel_id - 32, and falls back to the naive value
channel_id - 32 when no IP camera matches (analog cameras are never
considered); in particular channel id 33 with IP camera number 1
having input_port 1 resolves to 1. -/
theorem update_alert_channel_ip_remap (cameras : List Camera) (channel_id : Nat) :
    (32 < channel_id →
      cameras.filter (fun c => c.is_ip && c.input_port == channel_id - 32) = [] →
      update_alert_channel cameras channel_id = channel_id - 32)
    ∧ (∀ (c : Camera) (rest : List Camera), 32 < channel_id →
      cameras.filter (fun c => c.is_ip && c.input_port == channel_id - 32) = c :: rest →
      update_alert_channel cameras channel_id = c.camera_id)
    ∧ update_alert_channel [Camera.ipCamera 1 1] 33 = 1 := by
  refine ⟨fun h hf => ?_, fun c rest h hf => ?_, by decide⟩ <;>
    unfold update_alert_channel <;> rw [if_pos h, hf] <;> rfl

/-- Claim C7 witness: with a single IP camera of id 7 and input port 1,
an alert on channel 33 resolves to channel 7. -/
theorem update_alert_channel_ip_remap_witness :
    update_alert_channel [Camera.ipCamera 7 1] 33 = 7 :=
  (update_alert_channel_ip_remap [Camera.ipCamera 7 1] 33).2.1
    (Camera.ipCamera 7 1) [] (by decide) (by decide)

/-- Claim C3: enabling a mutex-eligible event on a nonzero channel of a
device that advertises mutex checking, when the probe reports at least
one conflicting item, raises the structured mutex error carrying the
event id and the issue list built from the probe items (each issue
holds the conflicting event id, rewritten through the alternate-id
table, and its channel list), and no PUT request is made. -/
theorem set_event_mutex_rejection (support : Bool) (channel_id : Nat) (event : EventInfo)
    (u : String) (items : List MutexItem) (current_enabled : String)
    (hurl : event.url = some u) (hch : channel_id ≠ 0) (hsup : support = true)
    (hmutex : event_mutex_flag event.id = true) (hne : items ≠ []) :
    set_event_enabled_state support channel_id event true (some items) current_enabled
      = SetEventOutcome.mutex_error event.id (items.map mutex_issue_of_item)
    ∧ ∀ (url new_state : String),
      set_event_enabled_state support channel_id event true (some items) current_enabled
        ≠ SetEventOutcome.put_request url new_state := by
  subst hsup
  have h1 : set_event_enabled_state true channel_id event true (some items) current_enabled
      = SetEventOutcome.mutex_error event.id (items.map mutex_issue_of_item) := by
    simp [set_event_enabled_state, hurl, get_event_switch_mutex, hmutex, hch,
          List.isEmpty_iff, hne]
  exact ⟨h1, fun url new_state => by rw [h1]; simp⟩

/-- A concrete motion detection event used by the toggling witnesses. -/
def event_md : EventInfo :=
  { id := "motiondetection", channel_id := 1, io_port_id := 0,
    url := some "System/Video/inputs/channels/1/motionDetection" }

/-- Claim C3 witness: enabling motion detection on channel 1 while the
probe reports VMDHumanVehicle active on channels 1 and 2 yields the
mutex error naming motiondetection conflicts on those channels. -/
theorem set_event_mutex_rejection_witness :
    set_event_enabled_state true 1 event_md true
        (some [{ mutexFunction := "VMDHumanVehicle", channelID := [1, 2] }]) "false"
      = SetEventOutcome.mutex_error "motiondetection"
          [{ event_id := "motiondetection", channels := [1, 2] }] :=
  (set_event_mutex_rejection true 1 event_md
      "System/Video/inputs/channels/1/motionDetection"
      [{ mutexFunction := "VMDHumanVehicle", channelID := [1, 2] }] "false"
      rfl (by decide) rfl (by decide) (by decide)).1

/-- Claim C4: with a known event URL and no mutex conflict, calling
set_event_enabled_state with the same enabled state the fetched state
document already reports returns after the GET without any PUT. -/
theorem set_event_idempotent (support : Bool) (channel_id : Nat) (event : EventInfo)
    (u : String) (is_enabled : Bool) (mutex_response : Option (List MutexItem))
    (hurl : event.url = some u)
    (hnomutex : get_event_switch_mutex event.id mutex_response = []) :
    set_event_enabled_state support channel_id event is_enabled mutex_response
        (bool_to_str is_enabled) = SetEventOutcome.no_change
    ∧ ∀ (url new_state : String),
      set_event_enabled_state support channel_id event is_enabled mutex_response
          (bool_to_str is_enabled) ≠ SetEventOutcome.put_request url new_state := by
  have h1 : set_event_enabled_state support channel_id event is_enabled mutex_response
      (bool_to_str is_enabled) = SetEventOutcome.no_change := by
    simp only [set_event_enabled_state, hurl]
    split
    · rw [hnomutex]
      simp
    · simp
  exact ⟨h1, fun url new_state => by rw [h1]; simp⟩

/-- Claim C4 witness: enabling motion detection when the device
document already reports it enabled performs no PUT. -/
theorem set_event_idempotent_witness :
    set_event_enabled_state true 1 event_md true none "true" = SetEventOutcome.no_change :=
  (set_event_idempotent true 1 event_md
      "System/Video/inputs/channels/1/motionDetection" true none rfl rfl).1

/-- Claim C10: a normalized event id that is not a key of EVENTS makes
parse_event_notification fail with KeyError at the table subscript
before it can return an AlertInfo; the explicit ValueError branch is
unreachable, because every value stored in EVENTS is a non-empty
mapping, so the falsy-entry guard never fires when the subscript
succeeds. -/
theorem parse_unknown_event_keyerror (raw_event_type : String) :
    ((assoc EVENTS (normalize_event_id_alert raw_event_type) = none →
      parse_event_notification_gate raw_event_type
        = Except.error (ParseFailure.keyError (normalize_event_id_alert raw_event_type)))
    ∧ ∀ msg, parse_event_notification_gate raw_event_type
        ≠ Except.error (ParseFailure.valueError msg))
    ∧ ∀ p ∈ EVENTS, (p.2).isEmpty = false := by
  refine ⟨⟨fun h => ?_, fun msg => ?_⟩, events_values_nonempty⟩
  · simp [parse_event_notification_gate, h]
  · unfold parse_event_notification_gate
    cases he : assoc EVENTS (normalize_event_id_alert raw_event_type) with
    | none => simp [he]
    | some entry =>
      have hne : entry.isEmpty = false := events_values_nonempty _ (assoc_mem he)
      simp [he, hne]

/-- Claim C10 witness: the event type FaceDetection normalizes to
facedetection, which is not in the table, and the gate fails with the
KeyError for that id. -/
theorem parse_unknown_event_keyerror_witness :
    parse_event_notification_gate "FaceDetection"
      = Except.error (ParseFailure.keyError "facedetection") :=
  (parse_unknown_event_keyerror "FaceDetection").1.1 rfl

theorem apply_event_entity_settings_disabled {serial_slug : String} {camera_id : Option Nat}
    {a e : EventInfo} (h : apply_event_entity_settings serial_slug camera_id a = some e) :
    e.disabled = !(e.notifications.contains "center") := by
  simp only [apply_event_entity_settings] at h
  split at h
  · split at h
    · exact absurd h (by simp)
    · injection h with h
      subst h
      rfl
  · exact absurd h (by simp)

/-- Claim C8: every EventInfo produced by get_device_event_capabilities
has disabled set to true exactly when the string center is not among
its notification methods. -/
theorem disabled_iff_no_center (supported_events : List EventInfo) (serial_slug : String)
    (camera_id : Option Nat) (e : EventInfo)
    (he : e ∈ get_device_event_capabilities supported_events serial_slug camera_id) :
    e.disabled = true ↔ "center" ∉ e.notifications := by
  simp only [get_device_event_capabilities] at he
  rw [List.mem_filterMap] at he
  obtain ⟨a, _, hfa⟩ := he
  rw [apply_event_entity_settings_disabled hfa]
  cases hc : e.notifications.contains "center" <;> simp_all [List.contains, List.elem_iff]

/-- An event whose notifications include center, fed to the witness of
the disabled-iff-no-center theorem. -/
def event_with_center : EventInfo :=
  { id := "io", channel_id := 0, io_port_id := 0, notifications := ["center"] }

/-- The event record produced from event_with_center by
get_device_event_capabilities of the NVR device. -/
def event_with_center_entity : EventInfo :=
  { id := "io", channel_id := 0, io_port_id := 0, unique_id := some "serial_io",
    notifications := ["center"], disabled := false }

/-- Claim C8 witness: an io event with center among its notification
methods passes through get_device_event_capabilities with disabled
false. -/
theorem disabled_iff_no_center_witness :
    event_with_center_entity.disabled = true
      ↔ "center" ∉ event_with_center_entity.notifications :=
  disabled_iff_no_center [event_with_center] "serial" none
    event_with_center_entity (by decide)

/-- Claim C9: when the forced RTSP port override is configured (a
nonzero value), and the admin-access protocol list contains an RTSP
entry with a truthy port, get_protocols records the override value no
matter which port the device reports; moreover, with the override
configured, the recorded port is only ever the override or the
untouched previous value, so a reported device port never becomes the
effective port. -/
theorem forced_rtsp_port_wins (n : Nat) (items : List ProtocolItem) (initial : String) :
    (n ≠ 0 →
      (∃ it ∈ items, it.protocol = "RTSP" ∧ port_truthy it.portNo = true) →
      get_protocols (some n) items initial = toString n)
    ∧ (n ≠ 0 →
      get_protocols (some n) items initial = toString n
        ∨ get_protocols (some n) items initial = initial) := by
  induction items with
  | nil =>
    exact ⟨fun _ h => absurd h (by simp), fun _ => Or.inr rfl⟩
  | cons item rest ih =>
    constructor
    · rintro hn ⟨it, hit, hproto, hport⟩
      unfold get_protocols
      by_cases hcond : item.protocol = "RTSP" ∧ port_truthy item.portNo = true
      · rw [if_pos hcond]
        simp [hn]
      · rw [if_neg hcond]
        rcases List.mem_cons.mp hit with heq | hmem
        · exact absurd ⟨heq ▸ hproto, heq ▸ hport⟩ hcond
        · exact ih.1 hn ⟨it, hmem, hproto, hport⟩
    · intro hn
      unfold get_protocols
      by_cases hcond : item.protocol = "RTSP" ∧ port_truthy item.portNo = true
      · rw [if_pos hcond]
        left
        simp [hn]
      · rw [if_neg hcond]
        exact ih.2 hn

/-- Claim C9 witness: with the override 9554 configured and the device
reporting RTSP port 554, the recorded port is 9554. -/
theorem forced_rtsp_port_wins_witness :
    get_protocols (some 9554) [{ protocol := "RTSP", portNo := some "554" }] "554"
      = toString (9554 : Nat) :=
  (forced_rtsp_port_wins 9554 [{ protocol := "RTSP", portNo := some "554" }] "554").1
    (by decide)
    ⟨{ protocol := "RTSP", portNo := some "554" }, by decide, rfl, rfl⟩

end HikvisionNext
